import Mathlib

/-!
Verification of the zone-alert evaluation and notification pipeline of the
Quake-Alert-Web application, shallowly embedded from `src/App.tsx`,
`src/components/MapView.tsx` and `src/types.ts`.

Numbers that are JavaScript floats in the source (magnitudes, coordinates,
radii) are modelled as rationals; millisecond timestamps as integers.
The great-circle distance helper `calculateDistance` lives in
`utils/geoUtils`, which is not part of the sources available here, so the
evaluator is parametrised by an arbitrary distance function; none of the
verified properties depend on its concrete values.
-/

namespace QuakeAlert

/-- Shallow embedding of the fields of `EarthquakeFeature` (src/types.ts)
that the alert pipeline reads: `id`, `properties.mag`, `properties.place`,
`properties.time`, and `geometry.coordinates` (longitude, latitude). -/
structure EarthquakeFeature where
  id : String
  mag : ℚ
  place : String
  time : ℤ
  longitude : ℚ
  latitude : ℚ
  deriving Repr, DecidableEq

/-- Shallow embedding of `AlertZone` (src/types.ts). `isVisible` is an
optional boolean in the source (`isVisible?: boolean`), hence `Option Bool`. -/
structure AlertZone where
  id : String
  name : String
  lat : ℚ
  lng : ℚ
  radiusKm : ℚ
  isVisible : Option Bool
  deriving Repr, DecidableEq

/-- Shallow embedding of `AlertNotification` (src/types.ts). -/
structure AlertNotification where
  id : String
  quakeId : String
  zoneId : String
  zoneName : String
  quakePlace : String
  mag : ℚ
  timestamp : ℤ
  deriving Repr, DecidableEq

/-- Type of the `calculateDistance(lat1, lng1, lat2, lng2)` helper from
`utils/geoUtils` (not among the available sources); the evaluator is
parametrised by it. -/
abbrev DistanceFn := ℚ → ℚ → ℚ → ℚ → ℚ

/-- The deterministic alert id `"{quake.id}-{zone.id}"` built at
src/App.tsx line 252. -/
def alertId (quake : EarthquakeFeature) (zone : AlertZone) : String :=
  quake.id ++ "-" ++ zone.id

/-- The `AlertNotification` object literal pushed at src/App.tsx
lines 256-264, snapshotting the event and zone fields. -/
def mkAlertNotification (quake : EarthquakeFeature) (zone : AlertZone) :
    AlertNotification :=
  { id := alertId quake zone
    quakeId := quake.id
    zoneId := zone.id
    zoneName := zone.name
    quakePlace := quake.place
    mag := quake.mag
    timestamp := quake.time }

/-- Body of the inner `currentZones.forEach` of `checkZoneAlerts`
(src/App.tsx lines 242-267): compute the distance from the zone center to
the quake, and when it is within the radius and the composite id is not in
`activeAlerts`, produce the new notification. -/
def alertForZone (calculateDistance : DistanceFn)
    (activeAlerts : List AlertNotification)
    (quake : EarthquakeFeature) (zone : AlertZone) : Option AlertNotification :=
  if calculateDistance zone.lat zone.lng quake.latitude quake.longitude
      ≤ zone.radiusKm then
    if (activeAlerts.find? (fun a => a.id == alertId quake zone)).isSome then
      none
    else
      some (mkAlertNotification quake zone)
  else
    none

/-- Body of the outer `quakes.forEach` of `checkZoneAlerts` (src/App.tsx
lines 235-268): skip the quake when its magnitude is below the threshold or
when it is older than `oneDayAgo`, otherwise scan all zones. -/
def alertsForQuake (calculateDistance : DistanceFn) (minAlertMag : ℚ)
    (oneDayAgo : ℤ) (activeAlerts : List AlertNotification)
    (currentZones : List AlertZone) (quake : EarthquakeFeature) :
    List AlertNotification :=
  if quake.mag < minAlertMag then []
  else if quake.time < oneDayAgo then []
  else currentZones.filterMap (alertForZone calculateDistance activeAlerts quake)

/-- The list `newAlerts` accumulated by `checkZoneAlerts` (src/App.tsx
lines 229-268). `now` stands for `Date.now()`; the function returns early
(with no new alerts) when the zone list or the quake list is empty. -/
def checkZoneAlerts (calculateDistance : DistanceFn) (minAlertMag : ℚ)
    (now : ℤ) (quakes : List EarthquakeFeature)
    (currentZones : List AlertZone) (activeAlerts : List AlertNotification) :
    List AlertNotification :=
  if currentZones.isEmpty || quakes.isEmpty then []
  else
    let oneDayAgo : ℤ := now - 24 * 60 * 60 * 1000
    quakes.flatMap
      (alertsForQuake calculateDistance minAlertMag oneDayAgo activeAlerts currentZones)

/-- The merge at src/App.tsx lines 270-273: when `newAlerts` is non-empty
the active list becomes `[...newAlerts, ...prev]`, otherwise it is left
untouched. -/
def mergeNewAlerts (newAlerts prev : List AlertNotification) :
    List AlertNotification :=
  if newAlerts.isEmpty then prev else newAlerts ++ prev

/-- One full evaluation step: run `checkZoneAlerts` and merge its output
into the active-alert collection. -/
def checkZoneAlertsStep (calculateDistance : DistanceFn) (minAlertMag : ℚ)
    (now : ℤ) (quakes : List EarthquakeFeature)
    (currentZones : List AlertZone) (activeAlerts : List AlertNotification) :
    List AlertNotification :=
  mergeNewAlerts
    (checkZoneAlerts calculateDistance minAlertMag now quakes currentZones activeAlerts)
    activeAlerts

/-- `dismissAlert` (src/App.tsx lines 361-363):
`prev.filter(a => a.id !== id)`. -/
def dismissAlert (i : String) (prev : List AlertNotification) :
    List AlertNotification :=
  prev.filter (fun a => !(a.id == i))

/-- `updateZone` (src/App.tsx lines 347-349):
`prev.map(z => z.id === updatedZone.id ? updatedZone : z)`. -/
def updateZone (updatedZone : AlertZone) (prev : List AlertZone) :
    List AlertZone :=
  prev.map (fun z => if z.id == updatedZone.id then updatedZone else z)

/-- The updated zone object built by `saveZone` in
src/components/MapView.tsx lines 227-240 when editing an existing zone: all
fields come from the edit form except `isVisible`, which is copied from the
existing zone found by id (`existing?.isVisible`). -/
def saveZoneUpdate (zones : List AlertZone) (editingZoneId newZoneName : String)
    (tempLat tempLng newZoneRadius : ℚ) : AlertZone :=
  let existing := zones.find? (fun z => z.id == editingZoneId)
  { id := editingZoneId
    name := newZoneName
    lat := tempLat
    lng := tempLng
    radiusKm := newZoneRadius
    isVisible := existing.bind (fun z => z.isVisible) }

/-- Observable speech-synthesis actions issued by `speakAlert`. -/
inductive SpeechAction where
  | cancel
  | speak (text : String)
  deriving Repr, DecidableEq

/-- `speakAlert` (src/App.tsx lines 90-109): returns immediately when
`speechSynthesis` is unavailable; otherwise cancels any current speech and
then speaks exactly one utterance. -/
def speakAlert (speechAvailable : Bool) (text : String) : List SpeechAction :=
  if speechAvailable then [SpeechAction.cancel, SpeechAction.speak text] else []

/-- The utterance text built at src/App.tsx line 203 from the head of the
active-alert list. -/
def voiceAlertText (latestAlert : AlertNotification) : String :=
  "সতর্কতা! " ++ latestAlert.zoneName ++ " এলাকায় " ++ toString latestAlert.mag
    ++ " মাত্রার ভূমিকম্প শনাক্ত হয়েছে।"

/-- Result of one run of the alert-monitor effect: the updated
`prevAlertCount` ref, whether `playAlertSiren` was invoked, and the speech
actions issued. -/
structure AlertMonitorResult where
  prevAlertCount : ℕ
  sirenTriggered : Bool
  speech : List SpeechAction
  deriving Repr, DecidableEq

/-- The alert-monitor effect (src/App.tsx lines 194-208): when the active
count increased, invoke the siren and — if the voice channel is on and the
list non-empty — speak the first alert; finally record the new count. -/
def alertMonitorStep (speechAvailable voiceAlertEnabled : Bool)
    (prevAlertCount : ℕ) (activeAlerts : List AlertNotification) :
    AlertMonitorResult :=
  if prevAlertCount < activeAlerts.length then
    { prevAlertCount := activeAlerts.length
      sirenTriggered := true
      speech :=
        if voiceAlertEnabled && decide (0 < activeAlerts.length) then
          match activeAlerts with
          | [] => []
          | latestAlert :: _ => speakAlert speechAvailable (voiceAlertText latestAlert)
        else [] }
  else
    { prevAlertCount := activeAlerts.length
      sirenTriggered := false
      speech := [] }

/-- Result of one run of the significant-quake monitor effect: the updated
`prevLatestQuakeId` ref and whether `playSignificantQuakeSound` was
invoked. -/
structure QuakeMonitorResult where
  prevLatestQuakeId : Option String
  soundTriggered : Bool
  deriving Repr, DecidableEq

/-- The severity floor `5.5` of the significant-quake check (src/App.tsx
line 218), written as `mkRat 11 2` so that it evaluates by kernel
reduction; `significantMagFloor_eq` identifies it with the literal `5.5`. -/
def significantMagFloor : ℚ := mkRat 11 2

/-- The severity floor is the source literal `5.5`. -/
theorem significantMagFloor_eq : significantMagFloor = 5.5 := by
  norm_num [significantMagFloor, mkRat, Rat.normalize]

/-- The significant-quake monitor effect (src/App.tsx lines 211-225): when
the list is non-empty, compare its head against the previously recorded
latest id; call `playSignificantQuakeSound` only when a previous id exists,
differs from the head id, and the head magnitude is at least 5.5; then
record the head id. -/
def significantQuakeStep (prevLatestQuakeId : Option String)
    (earthquakes : List EarthquakeFeature) : QuakeMonitorResult :=
  match earthquakes with
  | [] => { prevLatestQuakeId := prevLatestQuakeId, soundTriggered := false }
  | latest :: _ =>
    { prevLatestQuakeId := some latest.id
      soundTriggered :=
        match prevLatestQuakeId with
        | none => false
        | some p => latest.id != p && decide (significantMagFloor ≤ latest.mag) }

/-- The enablement gate inside `playSignificantQuakeSound` (src/App.tsx
line 144): the tone is audible only when the master sound toggle and the
quake-sound channel toggle are both on. -/
def playSignificantQuakeSound (isSoundEnabled quakeSoundEnabled : Bool) : Bool :=
  isSoundEnabled && quakeSoundEnabled

/-- Whether one run of the significant-quake monitor actually emits the
quake sound: the effect must invoke `playSignificantQuakeSound` and the
sound channels must be enabled. -/
def significantQuakeSoundEmitted (isSoundEnabled quakeSoundEnabled : Bool)
    (prevLatestQuakeId : Option String)
    (earthquakes : List EarthquakeFeature) : Bool :=
  (significantQuakeStep prevLatestQuakeId earthquakes).soundTriggered
    && playSignificantQuakeSound isSoundEnabled quakeSoundEnabled

/-! ## Concrete sample inputs

Used by the witness and counterexample theorems below. `distZero` and
`distFifty` are concrete instantiations of the abstract distance
parameter. -/

/-- A distance function placing every quake at the zone center. -/
def distZero : DistanceFn := fun _ _ _ _ => 0

/-- A distance function placing every quake exactly 50 km away. -/
def distFifty : DistanceFn := fun _ _ _ _ => 50

/-- A sample qualifying earthquake whose origin time is 86400000 ms. -/
def sampleQuake : EarthquakeFeature :=
  { id := "us7000abcd", mag := 5, place := "Dhaka, Bangladesh"
    time := 86400000, longitude := 90, latitude := 23 }

/-- A second sample earthquake, one hour after `sampleQuake`. -/
def sampleQuake2 : EarthquakeFeature :=
  { id := "us7000efgh", mag := 6, place := "Chattogram, Bangladesh"
    time := 90000000, longitude := 91, latitude := 22 }

/-- A sample alert zone of radius 50 km. -/
def sampleZone : AlertZone :=
  { id := "1700000000000", name := "Home", lat := 23, lng := 90
    radiusKm := 50, isVisible := some true }

/-- A second sample alert zone. -/
def sampleZone2 : AlertZone :=
  { id := "1700000000001", name := "Office", lat := 22, lng := 91
    radiusKm := 50, isVisible := some false }

/-- An earthquake whose origin time is exactly 24 hours before the
evaluation time 86400000 used in the boundary scenarios. -/
def boundaryQuake : EarthquakeFeature :=
  { id := "usBoundary", mag := 5, place := "Sylhet, Bangladesh"
    time := 0, longitude := 90, latitude := 23 }

/-- An earthquake strictly older than 24 hours at evaluation time
86400000. -/
def staleQuake : EarthquakeFeature :=
  { id := "usStale", mag := 5, place := "Cox Bazar, Bangladesh"
    time := -1, longitude := 90, latitude := 23 }

/-! ## Characterisation lemmas for the evaluator -/

/-- The 24-hour recency window in milliseconds. -/
theorem oneDay_eq : (24 * 60 * 60 * 1000 : ℤ) = 86400000 := by norm_num

/-- Searching the active list for a given id finds nothing exactly when no
active alert carries that id. -/
theorem find?_id_eq_none_iff {A : List AlertNotification} {s : String} :
    A.find? (fun b => b.id == s) = none ↔ ∀ b ∈ A, b.id ≠ s := by
  simp [List.find?_eq_none]

/-- Characterisation of the inner zone scan producing an alert. -/
theorem alertForZone_eq_some_iff {d : DistanceFn}
    {A : List AlertNotification} {q : EarthquakeFeature} {z : AlertZone}
    {a : AlertNotification} :
    alertForZone d A q z = some a ↔
      d z.lat z.lng q.latitude q.longitude ≤ z.radiusKm ∧
      A.find? (fun b => b.id == alertId q z) = none ∧
      a = mkAlertNotification q z := by
  unfold alertForZone
  by_cases hd : d z.lat z.lng q.latitude q.longitude ≤ z.radiusKm
  · simp only [hd, if_true]
    by_cases hf : (A.find? (fun b => b.id == alertId q z)).isSome
    · rw [Option.isSome_iff_exists] at hf
      obtain ⟨b, hb⟩ := hf
      simp [hb]
    · rw [Option.not_isSome_iff_eq_none] at hf
      simp [hf, hd, eq_comm]
  · simp [hd]

/-- Characterisation of the per-quake pass producing an alert. -/
theorem mem_alertsForQuake_iff {d : DistanceFn} {m : ℚ} {t : ℤ}
    {A : List AlertNotification} {zones : List AlertZone}
    {q : EarthquakeFeature} {a : AlertNotification} :
    a ∈ alertsForQuake d m t A zones q ↔
      ¬ q.mag < m ∧ ¬ q.time < t ∧
        ∃ z ∈ zones, alertForZone d A q z = some a := by
  unfold alertsForQuake
  split
  · rename_i hm
    simp [hm]
  · split
    · rename_i hm ht
      simp [hm, ht]
    · rename_i hm ht
      simp [hm, ht, List.mem_filterMap]

/-- Membership in the output of `checkZoneAlerts`, unfolded down to the
per-pair conditions. -/
theorem mem_checkZoneAlerts_iff {d : DistanceFn} {m : ℚ} {now : ℤ}
    {quakes : List EarthquakeFeature} {zones : List AlertZone}
    {A : List AlertNotification} {a : AlertNotification} :
    a ∈ checkZoneAlerts d m now quakes zones A ↔
      ∃ q ∈ quakes, ¬ q.mag < m ∧ ¬ q.time < now - 86400000 ∧
        ∃ z ∈ zones, alertForZone d A q z = some a := by
  unfold checkZoneAlerts
  rw [← oneDay_eq]
  split
  · rename_i h
    rw [Bool.or_eq_true, List.isEmpty_iff, List.isEmpty_iff] at h
    constructor
    · intro ha
      exact absurd ha (List.not_mem_nil a)
    · rintro ⟨q, hq, -, -, z, hz, -⟩
      rcases h with h | h
      · rw [h] at hz
        exact absurd hz (List.not_mem_nil z)
      · rw [h] at hq
        exact absurd hq (List.not_mem_nil q)
  · simp only [List.mem_flatMap]
    constructor
    · rintro ⟨q, hq, ha⟩
      rw [mem_alertsForQuake_iff] at ha
      exact ⟨q, hq, ha⟩
    · rintro ⟨q, hq, hm, ht, hz⟩
      exact ⟨q, hq, mem_alertsForQuake_iff.mpr ⟨hm, ht, hz⟩⟩

/-- The conditional merge of src/App.tsx lines 270-273 always amounts to
prepending the new alerts. -/
theorem mergeNewAlerts_eq_append (newAlerts prev : List AlertNotification) :
    mergeNewAlerts newAlerts prev = newAlerts ++ prev := by
  unfold mergeNewAlerts
  split
  · rename_i h
    rw [List.isEmpty_iff] at h
    rw [h, List.nil_append]
  · rfl

/-- The evaluation step is the evaluator output prepended to the previous
active collection. -/
theorem checkZoneAlertsStep_eq_append (d : DistanceFn) (m : ℚ) (now : ℤ)
    (quakes : List EarthquakeFeature) (zones : List AlertZone)
    (activeAlerts : List AlertNotification) :
    checkZoneAlertsStep d m now quakes zones activeAlerts
      = checkZoneAlerts d m now quakes zones activeAlerts ++ activeAlerts := by
  unfold checkZoneAlertsStep
  exact mergeNewAlerts_eq_append _ _

/-! ## Claims -/

/-- C1: every alert emitted by an evaluation run of `checkZoneAlerts` has
an id distinct from every id already present in the active-alert
collection passed to it: a pair whose deterministic id is already active is
never re-emitted, regardless of it still qualifying on magnitude, recency
and distance. -/
theorem C1_dedup_never_reemits (d : DistanceFn) (m : ℚ) (now : ℤ)
    (quakes : List EarthquakeFeature) (zones : List AlertZone)
    (activeAlerts : List AlertNotification) :
    ∀ a ∈ checkZoneAlerts d m now quakes zones activeAlerts,
      ∀ b ∈ activeAlerts, a.id ≠ b.id := by
  intro a ha b hb
  rw [mem_checkZoneAlerts_iff] at ha
  obtain ⟨q, hq, hm, ht, z, hz, hsome⟩ := ha
  rw [alertForZone_eq_some_iff] at hsome
  obtain ⟨-, hfind, rfl⟩ := hsome
  have hne := find?_id_eq_none_iff.mp hfind b hb
  exact fun h => hne (h ▸ rfl)

/-- Witness for C1 at a concrete input: with one alert already active, the
run that emits the second pair produces an alert whose id differs from the
active one. -/
theorem C1_dedup_never_reemits_witness :
    mkAlertNotification sampleQuake2 sampleZone ∈
      checkZoneAlerts distZero 3 86400000 [sampleQuake, sampleQuake2]
        [sampleZone] [mkAlertNotification sampleQuake sampleZone] ∧
    (mkAlertNotification sampleQuake2 sampleZone).id ≠
      (mkAlertNotification sampleQuake sampleZone).id :=
  ⟨by decide,
    C1_dedup_never_reemits distZero 3 86400000 [sampleQuake, sampleQuake2]
      [sampleZone] [mkAlertNotification sampleQuake sampleZone]
      (mkAlertNotification sampleQuake2 sampleZone) (by decide)
      (mkAlertNotification sampleQuake sampleZone) (by decide)⟩

/-- C2: evaluation is idempotent: after one evaluation step has merged its
emitted alerts into the active-alert collection, re-running the evaluator
with the same events, zones, threshold and current time emits nothing. -/
theorem C2_evaluation_idempotent (d : DistanceFn) (m : ℚ) (now : ℤ)
    (quakes : List EarthquakeFeature) (zones : List AlertZone)
    (activeAlerts : List AlertNotification) :
    checkZoneAlerts d m now quakes zones
      (checkZoneAlertsStep d m now quakes zones activeAlerts) = [] := by
  rw [checkZoneAlertsStep_eq_append]
  by_contra hne
  obtain ⟨a, ha⟩ := List.exists_mem_of_ne_nil _ hne
  rw [mem_checkZoneAlerts_iff] at ha
  obtain ⟨q, hq, hm, ht, z, hz, hsome⟩ := ha
  rw [alertForZone_eq_some_iff] at hsome
  obtain ⟨hd, hfind, rfl⟩ := hsome
  rw [find?_id_eq_none_iff] at hfind
  cases hA : activeAlerts.find? (fun b => b.id == alertId q z) with
  | some b =>
    have hbmem : b ∈ activeAlerts := List.mem_of_find?_eq_some hA
    have hbid : b.id = alertId q z := by
      have := List.find?_some hA
      simpa using this
    exact hfind b (List.mem_append_right _ hbmem) hbid
  | none =>
    have hmemN : mkAlertNotification q z ∈
        checkZoneAlerts d m now quakes zones activeAlerts := by
      rw [mem_checkZoneAlerts_iff]
      exact ⟨q, hq, hm, ht, z, hz, alertForZone_eq_some_iff.mpr ⟨hd, hA, rfl⟩⟩
    exact hfind _ (List.mem_append_left _ hmemN) rfl

/-- C3 counterexample: an event whose origin timestamp equals exactly
`now - 86400000` (here `boundaryQuake` at time 0 with `now = 86400000`) is
NOT excluded — the evaluation emits an alert for it, refuting the claim
that such an event produces no alert. -/
theorem C3_recency_boundary_counterexample :
    checkZoneAlerts distZero 3 86400000 [boundaryQuake] [sampleZone] [] ≠ [] := by
  decide

/-- C3 amended: the recency guard of the per-event pass skips an event only
when its age strictly exceeds the 24-hour window; an event whose origin
timestamp equals exactly `now - 86400000` passes the recency filter and is
processed like any fresh event (only magnitude, distance and dedup decide
its alerts), while an event strictly older than the window produces
nothing. -/
theorem C3_recency_boundary_amended (d : DistanceFn) (m : ℚ) (now : ℤ)
    (activeAlerts : List AlertNotification) (zones : List AlertZone)
    (q : EarthquakeFeature) :
    (q.time = now - 86400000 →
      alertsForQuake d m (now - 86400000) activeAlerts zones q
        = if q.mag < m then []
          else zones.filterMap (alertForZone d activeAlerts q)) ∧
    (now - q.time > 86400000 →
      alertsForQuake d m (now - 86400000) activeAlerts zones q = []) := by
  constructor
  · intro hb
    unfold alertsForQuake
    split
    · rfl
    · rw [if_neg]
      omega
  · intro hold
    unfold alertsForQuake
    split
    · rfl
    · rw [if_pos]
      omega

/-- Witness for C3 amended at concrete inputs: the boundary event is
processed by the zone scan, the strictly older one is dropped. -/
theorem C3_recency_boundary_amended_witness :
    (boundaryQuake.time = (86400000 : ℤ) - 86400000 ∧
      alertsForQuake distZero 3 ((86400000 : ℤ) - 86400000) [] [sampleZone]
          boundaryQuake
        = if boundaryQuake.mag < 3 then []
          else [sampleZone].filterMap (alertForZone distZero [] boundaryQuake)) ∧
    ((86400000 : ℤ) - staleQuake.time > 86400000 ∧
      alertsForQuake distZero 3 ((86400000 : ℤ) - 86400000) [] [sampleZone]
          staleQuake = []) :=
  ⟨⟨by decide,
    (C3_recency_boundary_amended distZero 3 86400000 [] [sampleZone]
      boundaryQuake).1 (by decide)⟩,
   ⟨by decide,
    (C3_recency_boundary_amended distZero 3 86400000 [] [sampleZone]
      staleQuake).2 (by decide)⟩⟩

/-- C4: the significant-quake sound (Trigger B) never fires when no
previous latest id is recorded (very first non-empty load), never fires
when the head of the descending-time-sorted list carries the previously
recorded id, and whenever the sound is emitted the head's magnitude is at
least 5.5. -/
theorem C4_significant_quake_trigger (isSoundEnabled quakeSoundEnabled : Bool)
    (prev : Option String) (earthquakes : List EarthquakeFeature) :
    (prev = none →
      significantQuakeSoundEmitted isSoundEnabled quakeSoundEnabled prev
        earthquakes = false) ∧
    (∀ latest rest, earthquakes = latest :: rest → prev = some latest.id →
      significantQuakeSoundEmitted isSoundEnabled quakeSoundEnabled prev
        earthquakes = false) ∧
    (∀ latest rest, earthquakes = latest :: rest →
      significantQuakeSoundEmitted isSoundEnabled quakeSoundEnabled prev
        earthquakes = true →
      (5.5 : ℚ) ≤ latest.mag) := by
  refine ⟨?_, ?_, ?_⟩
  · rintro rfl
    cases earthquakes with
    | nil => rfl
    | cons latest rest =>
      simp [significantQuakeSoundEmitted, significantQuakeStep,
        playSignificantQuakeSound]
  · rintro latest rest rfl rfl
    simp [significantQuakeSoundEmitted, significantQuakeStep,
      playSignificantQuakeSound]
  · rintro latest rest rfl h
    rw [← significantMagFloor_eq]
    cases prev with
    | none =>
      simp [significantQuakeSoundEmitted, significantQuakeStep,
        playSignificantQuakeSound] at h
    | some p =>
      simp [significantQuakeSoundEmitted, significantQuakeStep,
        playSignificantQuakeSound] at h
      exact h.1.2

/-- Witness for C4 at concrete inputs: no sound on first load, no sound on
an unchanged latest id, and the emitted case has magnitude at least 5.5. -/
theorem C4_significant_quake_trigger_witness :
    significantQuakeSoundEmitted true true none [sampleQuake2] = false ∧
    significantQuakeSoundEmitted true true (some sampleQuake2.id)
      [sampleQuake2] = false ∧
    ((significantQuakeSoundEmitted true true (some "previous") [sampleQuake2]
        = true) ∧
      (5.5 : ℚ) ≤ sampleQuake2.mag) :=
  ⟨(C4_significant_quake_trigger true true none [sampleQuake2]).1 rfl,
   (C4_significant_quake_trigger true true (some sampleQuake2.id)
      [sampleQuake2]).2.1 sampleQuake2 [] rfl rfl,
   by decide,
   (C4_significant_quake_trigger true true (some "previous")
      [sampleQuake2]).2.2 sampleQuake2 [] rfl (by decide)⟩

/-- C5: on an increase of the active-alert count with the voice channel
enabled (and speech synthesis available), the monitor issues exactly one
utterance — for the head of the active-alert collection, whose text carries
the zone name and magnitude — preceded by a cancellation of any in-flight
utterance, regardless of how many alerts were added in the cycle. -/
theorem C5_voice_alert_single_utterance (prevAlertCount : ℕ)
    (activeAlerts : List AlertNotification) (latestAlert : AlertNotification)
    (rest : List AlertNotification)
    (hinc : prevAlertCount < activeAlerts.length)
    (hhead : activeAlerts = latestAlert :: rest) :
    (alertMonitorStep true true prevAlertCount activeAlerts).speech
      = [SpeechAction.cancel,
         SpeechAction.speak (voiceAlertText latestAlert)] := by
  subst hhead
  simp only [List.length_cons] at hinc
  simp [alertMonitorStep, hinc, speakAlert]

/-- Witness for C5 at a concrete input: a cycle that added two alerts at
once speaks exactly the head alert, after one cancellation. -/
theorem C5_voice_alert_single_utterance_witness :
    0 < ([mkAlertNotification sampleQuake sampleZone,
          mkAlertNotification sampleQuake2 sampleZone2] :
          List AlertNotification).length ∧
    (alertMonitorStep true true 0
        [mkAlertNotification sampleQuake sampleZone,
         mkAlertNotification sampleQuake2 sampleZone2]).speech
      = [SpeechAction.cancel,
         SpeechAction.speak
           (voiceAlertText (mkAlertNotification sampleQuake sampleZone))] :=
  ⟨by decide,
   C5_voice_alert_single_utterance 0
     [mkAlertNotification sampleQuake sampleZone,
      mkAlertNotification sampleQuake2 sampleZone2]
     (mkAlertNotification sampleQuake sampleZone)
     [mkAlertNotification sampleQuake2 sampleZone2] (by decide) rfl⟩

/-- Two zones that agree on every field the evaluator reads, possibly
differing in `isVisible`. -/
def eqExceptVisibility (z w : AlertZone) : Prop :=
  z.id = w.id ∧ z.name = w.name ∧ z.lat = w.lat ∧ z.lng = w.lng ∧
    z.radiusKm = w.radiusKm

/-- The inner zone scan ignores `isVisible`. -/
theorem alertForZone_congr {d : DistanceFn} {A : List AlertNotification}
    {q : EarthquakeFeature} {z w : AlertZone}
    (hzw : eqExceptVisibility z w) :
    alertForZone d A q z = alertForZone d A q w := by
  obtain ⟨h1, h2, h3, h4, h5⟩ := hzw
  simp only [alertForZone, alertId, mkAlertNotification, h1, h2, h3, h4, h5]

/-- `sampleZone` with its visibility turned off. -/
def sampleZoneHidden : AlertZone := { sampleZone with isVisible := some false }

/-- C6: visibility independence — two zone lists that agree pointwise on
everything except the `isVisible` flag produce exactly the same alerts
under `checkZoneAlerts`; in particular an invisible zone alerts exactly
like the identical visible zone. -/
theorem C6_visibility_independence (d : DistanceFn) (m : ℚ) (now : ℤ)
    (quakes : List EarthquakeFeature)
    (activeAlerts : List AlertNotification)
    (zones zonesV : List AlertZone)
    (h : List.Forall₂ eqExceptVisibility zones zonesV) :
    checkZoneAlerts d m now quakes zones activeAlerts
      = checkZoneAlerts d m now quakes zonesV activeAlerts := by
  have hfm : ∀ q : EarthquakeFeature,
      zones.filterMap (alertForZone d activeAlerts q)
        = zonesV.filterMap (alertForZone d activeAlerts q) := by
    intro q
    induction h with
    | nil => rfl
    | cons hzw _ ih =>
      simp only [List.filterMap_cons, alertForZone_congr hzw, ih]
  have hemp : zones.isEmpty = zonesV.isEmpty := by
    cases h <;> rfl
  unfold checkZoneAlerts
  rw [hemp]
  split
  · rfl
  · have hfun : alertsForQuake d m (now - 24 * 60 * 60 * 1000) activeAlerts
        zones = alertsForQuake d m (now - 24 * 60 * 60 * 1000) activeAlerts
        zonesV := by
      funext q
      unfold alertsForQuake
      split
      · rfl
      · split
        · rfl
        · exact hfm q
    simp only [hfun]

/-- Witness for C6 at a concrete input: the hidden copy of `sampleZone`
raises the same alert as the visible one. -/
theorem C6_visibility_independence_witness :
    List.Forall₂ eqExceptVisibility [sampleZoneHidden] [sampleZone] ∧
    checkZoneAlerts distZero 3 86400000 [sampleQuake] [sampleZoneHidden] []
      = checkZoneAlerts distZero 3 86400000 [sampleQuake] [sampleZone] [] :=
  ⟨List.Forall₂.cons ⟨rfl, rfl, rfl, rfl, rfl⟩ List.Forall₂.nil,
   C6_visibility_independence distZero 3 86400000 [sampleQuake] []
     [sampleZoneHidden] [sampleZone]
     (List.Forall₂.cons ⟨rfl, rfl, rfl, rfl, rfl⟩ List.Forall₂.nil)⟩

/-- An update for `sampleZone`'s id that omits `isVisible` (the optional
field is absent, i.e. `none`). -/
def updateNoVisibility : AlertZone :=
  { id := sampleZone.id, name := "Home edited", lat := 24, lng := 91
    radiusKm := 60, isVisible := none }

/-- C7 counterexample: `updateZone` replaces the matched zone wholesale, so
an update that omits `isVisible` does NOT preserve the previous value: the
hidden zone (`isVisible = some false`) ends up with `isVisible = none`
after the update. -/
theorem C7_update_omits_visibility_counterexample :
    updateNoVisibility.id = sampleZoneHidden.id ∧
    updateNoVisibility.isVisible = none ∧
    sampleZoneHidden.isVisible = some false ∧
    (updateZone updateNoVisibility [sampleZoneHidden]).map
        (fun z => z.isVisible) ≠ [sampleZoneHidden.isVisible] := by
  refine ⟨rfl, rfl, rfl, ?_⟩
  decide

/-- C7 amended: `updateZone` itself replaces all fields of the matched zone
including `isVisible`; the previous visibility survives an edit because the
app's only update caller, `saveZone`, copies the first id-matching zone's
current `isVisible` into the update object it passes to `updateZone`. Thus
the update built by `saveZoneUpdate` carries the matched zone's visibility,
and every zone in the updated store either carries that preserved
visibility or is an untouched original. -/
theorem C7_saveZone_preserves_visibility (zones : List AlertZone)
    (editingZoneId newZoneName : String) (tempLat tempLng newZoneRadius : ℚ)
    (z : AlertZone)
    (hfind : zones.find? (fun w => w.id == editingZoneId) = some z) :
    (saveZoneUpdate zones editingZoneId newZoneName tempLat tempLng
        newZoneRadius).isVisible = z.isVisible ∧
    ∀ w ∈ updateZone
        (saveZoneUpdate zones editingZoneId newZoneName tempLat tempLng
          newZoneRadius) zones,
      w.isVisible = z.isVisible ∨ w ∈ zones := by
  have hvis : (saveZoneUpdate zones editingZoneId newZoneName tempLat tempLng
      newZoneRadius).isVisible = z.isVisible := by
    unfold saveZoneUpdate
    rw [hfind]
    rfl
  refine ⟨hvis, ?_⟩
  intro w hw
  rw [updateZone, List.mem_map] at hw
  obtain ⟨orig, horig, hweq⟩ := hw
  by_cases hid : (orig.id == (saveZoneUpdate zones editingZoneId newZoneName
      tempLat tempLng newZoneRadius).id) = true
  · rw [if_pos hid] at hweq
    exact Or.inl (hweq ▸ hvis)
  · rw [if_neg hid] at hweq
    exact Or.inr (hweq ▸ horig)

/-- Witness for C7 amended at a concrete input: editing the hidden zone
through the `saveZone` flow keeps `isVisible = some false`. -/
theorem C7_saveZone_preserves_visibility_witness :
    [sampleZoneHidden].find?
        (fun w => w.id == sampleZone.id) = some sampleZoneHidden ∧
    (saveZoneUpdate [sampleZoneHidden] sampleZone.id "Home edited" 24 91
        60).isVisible = sampleZoneHidden.isVisible ∧
    ∀ w ∈ updateZone
        (saveZoneUpdate [sampleZoneHidden] sampleZone.id "Home edited" 24 91
          60) [sampleZoneHidden],
      w.isVisible = sampleZoneHidden.isVisible ∨ w ∈ [sampleZoneHidden] :=
  ⟨by decide,
   (C7_saveZone_preserves_visibility [sampleZoneHidden] sampleZone.id
      "Home edited" 24 91 60 sampleZoneHidden (by decide)).1,
   (C7_saveZone_preserves_visibility [sampleZoneHidden] sampleZone.id
      "Home edited" 24 91 60 sampleZoneHidden (by decide)).2⟩

/-- C8: the active-alert collection is additive-only under evaluation — one
evaluation step yields exactly the newly emitted alerts prepended to the
previous collection, so every previously present alert is kept — and the
dismissal operation removes exactly the alerts carrying the dismissed id:
an alert survives `dismissAlert i` iff it was active and its id is not
`i`. -/
theorem C8_additive_only_dismiss_removes_exactly (d : DistanceFn) (m : ℚ)
    (now : ℤ) (quakes : List EarthquakeFeature) (zones : List AlertZone)
    (activeAlerts : List AlertNotification) (i : String) :
    checkZoneAlertsStep d m now quakes zones activeAlerts
      = checkZoneAlerts d m now quakes zones activeAlerts ++ activeAlerts ∧
    ∀ a : AlertNotification,
      a ∈ dismissAlert i activeAlerts ↔ a ∈ activeAlerts ∧ a.id ≠ i := by
  refine ⟨checkZoneAlertsStep_eq_append d m now quakes zones activeAlerts, ?_⟩
  intro a
  simp [dismissAlert, List.mem_filter]

/-- C9: distance boundary inclusivity — an event passing the magnitude and
recency filters whose computed distance to a zone center equals exactly the
zone's `radiusKm` qualifies: when its composite id is not yet active, the
evaluator emits the alert (the comparison is `≤`, not `<`). -/
theorem C9_distance_boundary_inclusive (d : DistanceFn) (m : ℚ) (now : ℤ)
    (quakes : List EarthquakeFeature) (zones : List AlertZone)
    (activeAlerts : List AlertNotification)
    (q : EarthquakeFeature) (z : AlertZone)
    (hq : q ∈ quakes) (hz : z ∈ zones)
    (hm : ¬ q.mag < m) (ht : ¬ q.time < now - 86400000)
    (hdist : d z.lat z.lng q.latitude q.longitude = z.radiusKm)
    (hnew : activeAlerts.find? (fun b => b.id == alertId q z) = none) :
    mkAlertNotification q z ∈
      checkZoneAlerts d m now quakes zones activeAlerts := by
  rw [mem_checkZoneAlerts_iff]
  exact ⟨q, hq, hm, ht, z, hz,
    alertForZone_eq_some_iff.mpr ⟨le_of_eq hdist, hnew, rfl⟩⟩

/-- Witness for C9 at a concrete input: with a distance function reporting
exactly 50 km against `sampleZone`'s 50 km radius, the alert is emitted. -/
theorem C9_distance_boundary_inclusive_witness :
    distFifty sampleZone.lat sampleZone.lng sampleQuake.latitude
        sampleQuake.longitude = sampleZone.radiusKm ∧
    mkAlertNotification sampleQuake sampleZone ∈
      checkZoneAlerts distFifty 3 86400000 [sampleQuake] [sampleZone] [] :=
  ⟨rfl,
   C9_distance_boundary_inclusive distFifty 3 86400000 [sampleQuake]
     [sampleZone] [] sampleQuake sampleZone (by decide) (by decide)
     (by decide) (by decide) rfl rfl⟩

/-- C10: dismissal re-arms the pair — after dismissing the alert with the
composite id of a still-qualifying (event, zone) pair, a re-evaluation
against the dismissed collection emits a fresh alert with that identical
id, because dedup is checked only against the current active collection. -/
theorem C10_dismissal_rearms (d : DistanceFn) (m : ℚ) (now : ℤ)
    (quakes : List EarthquakeFeature) (zones : List AlertZone)
    (activeAlerts : List AlertNotification)
    (q : EarthquakeFeature) (z : AlertZone)
    (hq : q ∈ quakes) (hz : z ∈ zones)
    (hm : ¬ q.mag < m) (ht : ¬ q.time < now - 86400000)
    (hdist : d z.lat z.lng q.latitude q.longitude ≤ z.radiusKm) :
    mkAlertNotification q z ∈
      checkZoneAlerts d m now quakes zones
        (dismissAlert (alertId q z) activeAlerts) := by
  rw [mem_checkZoneAlerts_iff]
  refine ⟨q, hq, hm, ht, z, hz,
    alertForZone_eq_some_iff.mpr ⟨hdist, ?_, rfl⟩⟩
  rw [find?_id_eq_none_iff]
  intro b hb
  have := List.of_mem_filter hb
  simpa using this

/-- Witness for C10 at a concrete input: after dismissing the only active
alert, re-evaluating the same snapshot emits the same alert id again. -/
theorem C10_dismissal_rearms_witness :
    dismissAlert (alertId sampleQuake sampleZone)
        [mkAlertNotification sampleQuake sampleZone] = [] ∧
    mkAlertNotification sampleQuake sampleZone ∈
      checkZoneAlerts distZero 3 86400000 [sampleQuake] [sampleZone]
        (dismissAlert (alertId sampleQuake sampleZone)
          [mkAlertNotification sampleQuake sampleZone]) :=
  ⟨by decide,
   C10_dismissal_rearms distZero 3 86400000 [sampleQuake] [sampleZone]
     [mkAlertNotification sampleQuake sampleZone] sampleQuake sampleZone
     (by decide) (by decide) (by decide) (by decide) (by decide)⟩

end QuakeAlert
